import Mathlib

/-!
Verification development for the ReBAC authorization core of the catalog
service (identifier model, error taxonomy, REST error projection).

The definitions are shallow embeddings of:
- `src/crates/iceberg-catalog/src/service/mod.rs` (identifier model,
  namespace parent computation);
- `src/crates/iceberg-catalog/src/service/authz/implementations/openfga/error.rs`
  (error taxonomy, REST error projection).

Types of external crates (uuid, tonic, openfga_rs, iceberg) are modelled to
the extent the source uses them.
-/

namespace Lakekeeper

/-! ### Model of `uuid::Uuid`

A UUID is 128 bits; its canonical text form is 32 lowercase hex digits in
groups of 8-4-4-4-12 separated by hyphens.  We represent the value by its 32
hex nibbles, pre-split into the five groups of the text form.  `Uuid.parse?`
models `uuid::Uuid::try_parse` (to which both `Uuid::from_str` and
`Uuid::parse_str` delegate): it accepts the simple (32 chars), hyphenated
(36), braced (38) and urn (45) formats, hex digits in either case.
`Uuid.toString` models `Display for Uuid`: lowercase hyphenated. -/

def hexChar (n : Fin 16) : Char :=
  if n.val < 10 then Char.ofNat (48 + n.val) else Char.ofNat (87 + n.val)

def hexVal? (c : Char) : Option (Fin 16) :=
  if h : 48 ≤ c.toNat ∧ c.toNat ≤ 57 then some ⟨c.toNat - 48, by omega⟩
  else if h : 97 ≤ c.toNat ∧ c.toNat ≤ 102 then some ⟨c.toNat - 87, by omega⟩
  else if h : 65 ≤ c.toNat ∧ c.toNat ≤ 70 then some ⟨c.toNat - 55, by omega⟩
  else none

theorem hexVal_hexChar : ∀ n : Fin 16, hexVal? (hexChar n) = some n := by decide

/-- Consume exactly `n` hex digits from the front of `cs`, returning their
values and the unconsumed remainder. -/
def takeHex : (n : Nat) → List Char → Option ({ l : List (Fin 16) // l.length = n } × List Char)
  | 0, cs => some (⟨[], rfl⟩, cs)
  | _ + 1, [] => none
  | n + 1, c :: cs =>
    match hexVal? c, takeHex n cs with
    | some v, some (⟨vs, hv⟩, r) => some (⟨v :: vs, by simp [hv]⟩, r)
    | _, _ => none

theorem takeHex_map (l : List (Fin 16)) (rest : List Char) :
    takeHex l.length (l.map hexChar ++ rest) = some (⟨l, rfl⟩, rest) := by
  induction l with
  | nil => rfl
  | cons a t ih => simp [takeHex, hexVal_hexChar a, ih]

theorem takeHex_of_length (n : Nat) (l : List (Fin 16)) (h : l.length = n) (rest : List Char) :
    takeHex n (l.map hexChar ++ rest) = some (⟨l, h⟩, rest) := by
  subst h; exact takeHex_map l rest

theorem takeHex_exact (n : Nat) (l : List (Fin 16)) (h : l.length = n) :
    takeHex n (l.map hexChar) = some (⟨l, h⟩, []) := by
  have := takeHex_of_length n l h []
  simpa using this

structure Uuid where
  g1 : List (Fin 16)
  h1 : g1.length = 8
  g2 : List (Fin 16)
  h2 : g2.length = 4
  g3 : List (Fin 16)
  h3 : g3.length = 4
  g4 : List (Fin 16)
  h4 : g4.length = 4
  g5 : List (Fin 16)
  h5 : g5.length = 12

def Uuid.toCharList (u : Uuid) : List Char :=
  u.g1.map hexChar ++ ('-' :: (u.g2.map hexChar ++ ('-' :: (u.g3.map hexChar ++
    ('-' :: (u.g4.map hexChar ++ ('-' :: u.g5.map hexChar)))))))

/-- `Display for uuid::Uuid`: canonical lowercase hyphenated form. -/
def Uuid.toText (u : Uuid) : String := String.mk u.toCharList

/-- Group separator of the hyphenated format. -/
def expectDash : List Char → Option (List Char)
  | '-' :: r => some r
  | _ => none

/-- Parse the five hex groups of a UUID, with `sep` consuming whatever is
required between groups (`expectDash` for the hyphenated format, `some`,
i.e. nothing, for the simple format). -/
def parseGroups (sep : List Char → Option (List Char)) (cs : List Char) : Option Uuid := do
  let (g1, r1) ← takeHex 8 cs
  let r1 ← sep r1
  let (g2, r2) ← takeHex 4 r1
  let r2 ← sep r2
  let (g3, r3) ← takeHex 4 r2
  let r3 ← sep r3
  let (g4, r4) ← takeHex 4 r3
  let r4 ← sep r4
  let (g5, r5) ← takeHex 12 r4
  match r5 with
  | [] => some ⟨g1.1, g1.2, g2.1, g2.2, g3.1, g3.2, g4.1, g4.2, g5.1, g5.2⟩
  | _ => none

def asciiLower (c : Char) : Char :=
  if 65 ≤ c.toNat ∧ c.toNat ≤ 90 then Char.ofNat (c.toNat + 32) else c

/-- `uuid::Uuid::try_parse`, dispatching on the input length as the crate
does: simple (32), hyphenated (36), braced (38), urn (45). -/
def Uuid.parseChars (cs : List Char) : Option Uuid :=
  if cs.length = 32 then parseGroups some cs
  else if cs.length = 36 then parseGroups expectDash cs
  else if cs.length = 38 then
    match cs with
    | c :: rest =>
      if c = Char.ofNat 123 ∧ rest.getLast? = some (Char.ofNat 125) then
        parseGroups expectDash rest.dropLast
      else none
    | [] => none
  else if cs.length = 45 then
    if (cs.take 9).map asciiLower = String.toList ("urn:uuid:") then
      parseGroups expectDash (cs.drop 9)
    else none
  else none

def Uuid.parse? (s : String) : Option Uuid := Uuid.parseChars s.toList

theorem parseGroups_toCharList (u : Uuid) : parseGroups expectDash u.toCharList = some u := by
  obtain ⟨g1, h1, g2, h2, g3, h3, g4, h4, g5, h5⟩ := u
  simp [Uuid.toCharList, parseGroups, expectDash, Option.bind,
    takeHex_of_length 8 g1 h1, takeHex_of_length 4 g2 h2, takeHex_of_length 4 g3 h3,
    takeHex_of_length 4 g4 h4, takeHex_exact 12 g5 h5]

theorem toCharList_length (u : Uuid) : u.toCharList.length = 36 := by
  obtain ⟨g1, h1, g2, h2, g3, h3, g4, h4, g5, h5⟩ := u
  simp [Uuid.toCharList, h1, h2, h3, h4, h5]

theorem uuid_parse_toText (u : Uuid) : Uuid.parse? u.toText = some u := by
  show Uuid.parseChars u.toCharList = some u
  simp [Uuid.parseChars, toCharList_length, parseGroups_toCharList u]

/-! ### Model of `tonic::Status` and the openfga_rs request payloads

`tonic::Status` carries a gRPC status code and a message; the source only
reads `status.code()` and `status.message()`.  The request payload types are
carried opaquely by the error taxonomy; we model the fields the crate
declares that the source could carry, but no claim inspects them. -/

inductive Code
  | ok | cancelled | unknown | invalidArgument | deadlineExceeded | notFound
  | alreadyExists | permissionDenied | resourceExhausted | failedPrecondition
  | aborted | outOfRange | unimplemented | internal | unavailable | dataLoss
  | unauthenticated
deriving DecidableEq, Repr

structure Status where
  code : Code
  message : String
deriving DecidableEq, Repr

/-- Modelled rendering of `Display for tonic::Status` (external crate); used
only to interpolate a status into human-readable error messages. -/
def Status.toDisplay (s : Status) : String :=
  "status: " ++ reprStr s.code ++ ", message: " ++ s.message

structure ReadRequestTupleKey where
  user : String
  relation : String
  object : String
deriving DecidableEq

structure ReadRequest where
  store_id : String
deriving DecidableEq

structure CheckRequest where
  store_id : String
deriving DecidableEq

structure WriteRequest where
  store_id : String
deriving DecidableEq

structure MiddleError where
  msg : String
deriving DecidableEq

structure TransportError where
  msg : String
deriving DecidableEq

structure InvalidMetadataValue where
  msg : String
deriving DecidableEq

/-- Modelled from the spec: the entity type tag (`FgaType`, declared in the
repository outside the provided sources) — "a closed enumeration over
\x7bProject, Warehouse, Namespace, Table, …\x7d used only for diagnostics". -/
inductive FgaType
  | Project | Warehouse | Namespace | Table
deriving DecidableEq, Repr

/-! ### The error taxonomy (`OpenFGAError`) -/

inductive OpenFGAError
  | AuthorizationModelIdFailed (reason : String)
  | ClientCredentialFailed (e : MiddleError)
  | ConnectionFailed (e : TransportError)
  | Internal (status : Status)
  | InvalidBearerToken (v : InvalidMetadataValue)
  | ListAuthenticationModelsFailed (status : Status)
  | ListStoresFailed (status : Status)
  | ReadFailed (read_request : ReadRequest) (source : Status)
  | CheckFailed (check_request : CheckRequest) (source : Status)
  | StoreCreationFailed (status : Status)
  | StoreNotFound (store : String)
  | TooManyAuthorizationModels (maxPages : Nat)
  | TooManyPages (max_pages : Nat) (tuple : ReadRequestTupleKey)
  | Unauthenticated (status : Status)
  | UnexpectedEntity (types : List FgaType) (value : String)
  | UnknownType (t : String)
  | InvalidEntity (s : String)
  | UnknownModelVersionApplied (v : Nat)
  | WriteAuthorizationModelFailed (status : Status)
  | WriteFailed (write_request : WriteRequest) (source : Status)
  | TooManyWrites (actual : Int) (max : Int)
  | NoProjectId
  | AuthenticationRequired
  | Unauthorized (user : String) (relation : String) (object : String)
  | SelfAssignment (s : String)
deriving DecidableEq

namespace OpenFGAError

/-- The thiserror-derived `Display` of `OpenFGAError` (the `#[error("...")]`
attribute of each variant). -/
def errMsg : OpenFGAError → String
  | .AuthorizationModelIdFailed reason => "Authorization Model ID failed: " ++ reason
  | .ClientCredentialFailed _ => "Client Credential refresh failed"
  | .ConnectionFailed _ => "Connection to OpenFGA failed"
  | .Internal _ => "Internal Authorization Error"
  | .InvalidBearerToken v => "Invalid Bearer Token for OpenFGA: " ++ v.msg
  | .ListAuthenticationModelsFailed _ => "Listing authentication models failed"
  | .ListStoresFailed _ => "OpenFGA Error: Listing stores failed"
  | .ReadFailed _ _ => "Reading tuples failed"
  | .CheckFailed _ _ => "Authorization check failed"
  | .StoreCreationFailed st => "Store creation failed: " ++ st.toDisplay
  | .StoreNotFound store => "Store " ++ store ++ " not found. Please ensure to run migration first."
  | .TooManyAuthorizationModels n =>
      "Too many authorization models in database. Max allowed pages: " ++ toString n
  | .TooManyPages _ _ => "Too many pages"
  | .Unauthenticated _ => "Authentication to Authorization system failed"
  | .UnexpectedEntity ts v =>
      "Unexpected entity for type " ++ reprStr ts ++ ": " ++ v
  | .UnknownType t => "Unknown type: " ++ t
  | .InvalidEntity s => "Invalid entity string: `" ++ s ++ "`"
  | .UnknownModelVersionApplied _ => "Unknown model version currently applied"
  | .WriteAuthorizationModelFailed st => "Failed to write Authorization model: " ++ st.toDisplay
  | .WriteFailed _ _ => "Failed to write Authorization tuples"
  | .TooManyWrites actual max =>
      "Too many writes and deletes in single Authorization transaction (actual) " ++
        toString actual ++ " > " ++ toString max ++ " (max)"
  | .NoProjectId => "Project ID could not be inferred from request. Please specify it explicitly."
  | .AuthenticationRequired => "Authentication required"
  | .Unauthorized user relation object =>
      "Unauthorized for action `" ++ relation ++ "` on `" ++ object ++ "` for `" ++ user ++ "`"
  | .SelfAssignment s => "Cannot assign " ++ s ++ " to itself"

/-- `OpenFGAError::known_status`. -/
def known_status (status : Status) : Option OpenFGAError :=
  match status.code with
  | Code.unauthenticated => some (OpenFGAError.Unauthenticated status)
  | Code.internal => some (OpenFGAError.Internal status)
  | _ => none

/-- `OpenFGAError::store_creation`. -/
def store_creation (status : Status) : OpenFGAError :=
  (known_status status).getD (OpenFGAError.StoreCreationFailed status)

/-- `OpenFGAError::list_stores`. -/
def list_stores (status : Status) : OpenFGAError :=
  (known_status status).getD (OpenFGAError.ListStoresFailed status)

/-- `OpenFGAError::list_authentication_models` (cfg(test)). -/
def list_authentication_models (status : Status) : OpenFGAError :=
  (known_status status).getD (OpenFGAError.ListAuthenticationModelsFailed status)

/-- `OpenFGAError::write_authorization_model`. -/
def write_authorization_model (status : Status) : OpenFGAError :=
  (known_status status).getD (OpenFGAError.WriteAuthorizationModelFailed status)

/-- `OpenFGAError::unexpected_entity`. -/
def unexpected_entity (types : List FgaType) (value : String) : OpenFGAError :=
  OpenFGAError.UnexpectedEntity types value

/-- `OpenFGAError::as_status`. -/
def asStatus : OpenFGAError → Option Status
  | .CheckFailed _ source => some source
  | .ReadFailed _ source => some source
  | .WriteFailed _ source => some source
  | .Unauthenticated status => some status
  | .Internal status => some status
  | .WriteAuthorizationModelFailed status => some status
  | .ListStoresFailed status => some status
  | .StoreCreationFailed status => some status
  | _ => none

end OpenFGAError

/-! ### The REST error projection (`ErrorModel`, `IcebergErrorResponse`)

`ErrorModel` lives in the repository's iceberg-ext crate, outside the
provided sources.  Modelled from the spec: the generic error-response shape
is `\x7bmessage: string, type: string, code: integer (HTTP status), stack:
optional list of diagnostic strings\x7d` plus an optional cause; the named
constructors carry the standard HTTP codes of their names (bad_request 400,
unauthorized 401, not_found 404, conflict 409). -/

structure ErrorModel where
  message : String
  type_ : String
  code : Nat
  stack : Option (List String)
  source : Option OpenFGAError
deriving DecidableEq

namespace ErrorModel

def new (message type_ : String) (code : Nat) (source : Option OpenFGAError) : ErrorModel :=
  ⟨message, type_, code, none, source⟩

def bad_request (message type_ : String) (source : Option OpenFGAError) : ErrorModel :=
  new message type_ 400 source

def unauthorized (message type_ : String) (source : Option OpenFGAError) : ErrorModel :=
  new message type_ 401 source

def not_found (message type_ : String) (source : Option OpenFGAError) : ErrorModel :=
  new message type_ 404 source

def conflict (message type_ : String) (source : Option OpenFGAError) : ErrorModel :=
  new message type_ 409 source

/-- `ErrorModel::builder().code(..).message(..).r#type(..).stack(..).build()`. -/
def build (code : Nat) (message type_ : String) (stack : Option (List String)) : ErrorModel :=
  ⟨message, type_, code, stack, none⟩

end ErrorModel

/-- Rust `str::starts_with` on our string model. -/
def strStartsWith (s pre : String) : Bool := pre.toList.isPrefixOf s.toList

/-- Rust `Option::is_some_and`. -/
def isSomeAnd (p : α → Bool) : Option α → Bool
  | some a => p a
  | none => false

/-- `impl From<OpenFGAError> for ErrorModel` (the REST error projection). -/
def ErrorModel.fromOpenFGA (err : OpenFGAError) : ErrorModel :=
  let err_msg := err.errMsg
  let status_msg := err.asStatus.map Status.message
  match err with
  | .NoProjectId =>
      ErrorModel.bad_request err_msg ("NoProjectId") (some OpenFGAError.NoProjectId)
  | .AuthenticationRequired =>
      ErrorModel.unauthorized err_msg ("AuthenticationRequired")
        (some OpenFGAError.AuthenticationRequired)
  | .Unauthorized u r o =>
      ErrorModel.unauthorized err_msg ("Unauthorized") (some (OpenFGAError.Unauthorized u r o))
  | .WriteFailed w st =>
      if isSomeAnd (fun s => strStartsWith s ("cannot write a tuple which already exists"))
          status_msg then
        ErrorModel.conflict err_msg ("TupleAlreadyExistsError")
          (some (OpenFGAError.WriteFailed w st))
      else if isSomeAnd (fun s => strStartsWith s ("cannot delete a tuple which does not exist"))
          status_msg then
        ErrorModel.not_found err_msg ("TupleNotFoundError")
          (some (OpenFGAError.WriteFailed w st))
      else
        ErrorModel.new err_msg ("AuthorizationError") 500 (some (OpenFGAError.WriteFailed w st))
  | e => ErrorModel.new err_msg ("AuthorizationError") 500 (some e)

structure IcebergErrorResponse where
  error : ErrorModel
deriving DecidableEq

/-- `impl From<OpenFGAError> for IcebergErrorResponse`. -/
def IcebergErrorResponse.fromOpenFGA (err : OpenFGAError) : IcebergErrorResponse :=
  ⟨ErrorModel.fromOpenFGA err⟩

/-! ### Identifier model (`service/mod.rs`) -/

/-- Modelled from the spec: the rendering of the uuid crate's parse error
("the underlying UUID-parse diagnostic"); the source stores `e.to_string()`
in the error stack.  Its exact text is unspecified; only that it is the
diagnostic produced for the offending input, carried verbatim. -/
def uuidErrorString (s : String) : String := "invalid UUID: " ++ s

/-- `uuid::Uuid::from_str` / `uuid::Uuid::parse_str` as used by the source:
the parsed value, or the parse diagnostic on failure. -/
def Uuid.parseE (s : String) : Except String Uuid :=
  match Uuid.parse? s with
  | some u => Except.ok u
  | none => Except.error (uuidErrorString s)

/-- `iceberg::NamespaceIdent`: an ordered sequence of name segments
(external iceberg crate). -/
structure NamespaceIdent where
  inner : List String
deriving DecidableEq

/-- `iceberg::NamespaceIdent::from_vec` (external iceberg crate): fails
exactly when the vector is empty, as documented by the source comment
"This only fails if the vector is empty". -/
def NamespaceIdent.from_vec (names : List String) : Except String NamespaceIdent :=
  if names.isEmpty then Except.error ("Namespace identifier can't be empty") else
    Except.ok ⟨names⟩

/-- `NamespaceIdentExt::parent` for `NamespaceIdent`. -/
def NamespaceIdent.parent (ns : NamespaceIdent) : Option NamespaceIdent :=
  let name := ns.inner.dropLast
  if name.isEmpty then none
  else
    match NamespaceIdent.from_vec name with
    | Except.ok ident => some ident
    | Except.error _ => none

/-- `WarehouseStatus`. -/
inductive WarehouseStatus
  | Active | Inactive
deriving DecidableEq

structure NamespaceIdentUuid where
  uuid : Uuid

structure TableIdentUuid where
  uuid : Uuid

structure ProjectIdent where
  uuid : Uuid

structure WarehouseIdent where
  uuid : Uuid

def NamespaceIdentUuid.fromUuid (u : Uuid) : NamespaceIdentUuid := ⟨u⟩
def TableIdentUuid.fromUuid (u : Uuid) : TableIdentUuid := ⟨u⟩
def ProjectIdent.fromUuid (u : Uuid) : ProjectIdent := ⟨u⟩
def WarehouseIdent.fromUuid (u : Uuid) : WarehouseIdent := ⟨u⟩

def NamespaceIdentUuid.toText (i : NamespaceIdentUuid) : String := i.uuid.toText
def TableIdentUuid.toText (i : TableIdentUuid) : String := i.uuid.toText
def ProjectIdent.toText (i : ProjectIdent) : String := i.uuid.toText
def WarehouseIdent.toText (i : WarehouseIdent) : String := i.uuid.toText

/-- `impl FromStr for NamespaceIdentUuid`. -/
def NamespaceIdentUuid.fromStr (s : String) : Except IcebergErrorResponse NamespaceIdentUuid :=
  match Uuid.parseE s with
  | Except.ok u => Except.ok ⟨u⟩
  | Except.error e =>
      Except.error ⟨ErrorModel.build 400 ("Provided namespace id is not a valid UUID")
        ("NamespaceIDIsNotUUID") (some [e])⟩

/-- `impl FromStr for TableIdentUuid`. -/
def TableIdentUuid.fromStr (s : String) : Except IcebergErrorResponse TableIdentUuid :=
  match Uuid.parseE s with
  | Except.ok u => Except.ok ⟨u⟩
  | Except.error e =>
      Except.error ⟨ErrorModel.build 400 ("Provided table id is not a valid UUID")
        ("TableIDIsNotUUID") (some [e])⟩

/-- `impl FromStr for ProjectIdent`. -/
def ProjectIdent.fromStr (s : String) : Except IcebergErrorResponse ProjectIdent :=
  match Uuid.parseE s with
  | Except.ok u => Except.ok ⟨u⟩
  | Except.error e =>
      Except.error ⟨ErrorModel.build 400 ("Provided project id is not a valid UUID")
        ("ProjectIDIsNotUUID") (some [e])⟩

/-- `impl FromStr for WarehouseIdent`. -/
def WarehouseIdent.fromStr (s : String) : Except IcebergErrorResponse WarehouseIdent :=
  match Uuid.parseE s with
  | Except.ok u => Except.ok ⟨u⟩
  | Except.error e =>
      Except.error ⟨ErrorModel.build 400 ("Provided warehouse id is not a valid UUID")
        ("WarehouseIDIsNotUUID") (some [e])⟩

/-- `crate::api::iceberg::v1::Prefix`: the raw path-prefix token (a string
wrapper; `as_str` returns the wrapped string). -/
structure PrefixToken where
  raw : String
deriving DecidableEq

/-- `impl TryFrom<Prefix> for WarehouseIdent` (via `uuid::Uuid::parse_str`). -/
def WarehouseIdent.tryFromPrefixToken (value : PrefixToken) :
    Except IcebergErrorResponse WarehouseIdent :=
  match Uuid.parseE value.raw with
  | Except.ok u => Except.ok ⟨u⟩
  | Except.error e =>
      Except.error ⟨ErrorModel.build 400
        ("Provided prefix is not a warehouse id. Expected UUID, got: " ++ value.raw)
        ("PrefixIsNotWarehouseID") (some [e])⟩

/-- The success projection of an `Except` (for comparing the two warehouse
parse entry points). -/
def exceptOk? : Except ε α → Option α
  | Except.ok a => some a
  | Except.error _ => none

/-- HTTP code of the error branch of a fallible identifier parse, if any. -/
def errCode? : Except IcebergErrorResponse α → Option Nat
  | Except.ok _ => none
  | Except.error e => some e.error.code

/-- Stack of the error branch of a fallible identifier parse, if any. -/
def errStack? : Except IcebergErrorResponse α → Option (Option (List String))
  | Except.ok _ => none
  | Except.error e => some e.error.stack

/-! ### Theorems about the error taxonomy and its REST projection -/

/-- The two sniffed WriteFailed message prefixes are incompatible: no
message starts with both. -/
theorem write_prefixes_incompatible (s : String) :
    strStartsWith s ("cannot write a tuple which already exists") = true →
    strStartsWith s ("cannot delete a tuple which does not exist") = true → False := by
  intro h1 h2
  rw [strStartsWith, List.isPrefixOf_iff_prefix] at h1 h2
  rcases List.prefix_or_prefix_of_prefix h1 h2 with h | h
  · exact absurd h (by decide)
  · exact absurd h (by decide)

/-- C1: projecting a `WriteFailed` error inspects the underlying store
status message: a message starting with "cannot write a tuple which already
exists" projects to HTTP 409 / "TupleAlreadyExistsError"; one starting with
"cannot delete a tuple which does not exist" projects to HTTP 404 /
"TupleNotFoundError"; any other message projects to HTTP 500 /
"AuthorizationError". -/
theorem writeFailed_projection_classification (w : WriteRequest) (st : Status) :
    (strStartsWith st.message ("cannot write a tuple which already exists") = true →
      (ErrorModel.fromOpenFGA (OpenFGAError.WriteFailed w st)).code = 409 ∧
      (ErrorModel.fromOpenFGA (OpenFGAError.WriteFailed w st)).type_ = "TupleAlreadyExistsError")
  ∧ (strStartsWith st.message ("cannot delete a tuple which does not exist") = true →
      (ErrorModel.fromOpenFGA (OpenFGAError.WriteFailed w st)).code = 404 ∧
      (ErrorModel.fromOpenFGA (OpenFGAError.WriteFailed w st)).type_ = "TupleNotFoundError")
  ∧ (strStartsWith st.message ("cannot write a tuple which already exists") = false →
      strStartsWith st.message ("cannot delete a tuple which does not exist") = false →
      (ErrorModel.fromOpenFGA (OpenFGAError.WriteFailed w st)).code = 500 ∧
      (ErrorModel.fromOpenFGA (OpenFGAError.WriteFailed w st)).type_ = "AuthorizationError") := by
  refine ⟨fun h1 => ?_, fun h2 => ?_, fun h1 h2 => ?_⟩
  · simp [ErrorModel.fromOpenFGA, OpenFGAError.asStatus, isSomeAnd, h1,
      ErrorModel.conflict, ErrorModel.new]
  · have h1 : strStartsWith st.message ("cannot write a tuple which already exists") = false := by
      cases hx : strStartsWith st.message ("cannot write a tuple which already exists") with
      | false => rfl
      | true => exact (write_prefixes_incompatible st.message hx h2).elim
    simp [ErrorModel.fromOpenFGA, OpenFGAError.asStatus, isSomeAnd, h1, h2,
      ErrorModel.not_found, ErrorModel.new]
  · simp [ErrorModel.fromOpenFGA, OpenFGAError.asStatus, isSomeAnd, h1, h2, ErrorModel.new]

/-- Witness for C1: each of the three classification branches at a concrete
write failure. -/
theorem writeFailed_projection_classification_witness :
    strStartsWith ("cannot write a tuple which already exists: x") ("cannot write a tuple which already exists") = true
  ∧ (ErrorModel.fromOpenFGA (OpenFGAError.WriteFailed ⟨"s"⟩
      ⟨Code.aborted, "cannot write a tuple which already exists: x"⟩)).code = 409
  ∧ (ErrorModel.fromOpenFGA (OpenFGAError.WriteFailed ⟨"s"⟩
      ⟨Code.aborted, "cannot delete a tuple which does not exist: x"⟩)).code = 404
  ∧ (ErrorModel.fromOpenFGA (OpenFGAError.WriteFailed ⟨"s"⟩
      ⟨Code.aborted, "boom"⟩)).code = 500 :=
  ⟨by decide,
   ((writeFailed_projection_classification ⟨"s"⟩
      ⟨Code.aborted, "cannot write a tuple which already exists: x"⟩).1 (by decide)).1,
   ((writeFailed_projection_classification ⟨"s"⟩
      ⟨Code.aborted, "cannot delete a tuple which does not exist: x"⟩).2.1 (by decide)).1,
   (((writeFailed_projection_classification ⟨"s"⟩
      ⟨Code.aborted, "boom"⟩).2.2 (by decide)) (by decide)).1⟩

/-- C2 counterexample: the claim says projecting `SelfAssignment(x)` yields
HTTP 400; on the code, `SelfAssignment` falls into the catch-all arm of the
projection, which yields HTTP 500. -/
theorem selfAssignment_projection_counterexample :
    (ErrorModel.fromOpenFGA (OpenFGAError.SelfAssignment ("user:alice"))).code = 500 ∧
    ¬ (ErrorModel.fromOpenFGA (OpenFGAError.SelfAssignment ("user:alice"))).code = 400 :=
  ⟨rfl, by decide⟩

/-- C2 (amended): for every identity string x, projecting the
`SelfAssignment(x)` error value to a REST error yields HTTP status 500 with
type tag "AuthorizationError" (the catch-all projection arm). -/
theorem selfAssignment_projection (x : String) :
    (ErrorModel.fromOpenFGA (OpenFGAError.SelfAssignment x)).code = 500 ∧
    (ErrorModel.fromOpenFGA (OpenFGAError.SelfAssignment x)).type_ = "AuthorizationError" :=
  ⟨rfl, rfl⟩

/-- C3 counterexample: the claim says projecting `Unauthenticated(s)` yields
HTTP 401; on the code, `Unauthenticated` falls into the catch-all arm of the
projection, which yields HTTP 500. -/
theorem unauthenticated_projection_counterexample :
    (ErrorModel.fromOpenFGA (OpenFGAError.Unauthenticated
      ⟨Code.unauthenticated, "token expired"⟩)).code = 500 ∧
    ¬ (ErrorModel.fromOpenFGA (OpenFGAError.Unauthenticated
      ⟨Code.unauthenticated, "token expired"⟩)).code = 401 :=
  ⟨rfl, by decide⟩

/-- C3 (amended): for every raw store status s, projecting
`Unauthenticated(s)` yields HTTP status 500, and projecting `Internal(s)`
yields HTTP status 500 (both via the catch-all projection arm). -/
theorem genericStatus_projection (st : Status) :
    (ErrorModel.fromOpenFGA (OpenFGAError.Unauthenticated st)).code = 500 ∧
    (ErrorModel.fromOpenFGA (OpenFGAError.Internal st)).code = 500 :=
  ⟨rfl, rfl⟩

/-- C4: the failure-classifying constructors first inspect the raw status
code — Unauthenticated becomes `Unauthenticated(s)`, Internal becomes
`Internal(s)`, anything else the operation-specific variant carrying the
status unchanged. -/
theorem known_status_classification (st : Status) :
    OpenFGAError.store_creation st =
      (if st.code = Code.unauthenticated then OpenFGAError.Unauthenticated st
       else if st.code = Code.internal then OpenFGAError.Internal st
       else OpenFGAError.StoreCreationFailed st)
  ∧ OpenFGAError.list_stores st =
      (if st.code = Code.unauthenticated then OpenFGAError.Unauthenticated st
       else if st.code = Code.internal then OpenFGAError.Internal st
       else OpenFGAError.ListStoresFailed st)
  ∧ OpenFGAError.write_authorization_model st =
      (if st.code = Code.unauthenticated then OpenFGAError.Unauthenticated st
       else if st.code = Code.internal then OpenFGAError.Internal st
       else OpenFGAError.WriteAuthorizationModelFailed st) := by
  obtain ⟨c, m⟩ := st
  cases c <;>
    simp [OpenFGAError.store_creation, OpenFGAError.list_stores,
      OpenFGAError.write_authorization_model, OpenFGAError.known_status]

/-- C9: the REST projection is a total function — every error value maps to
exactly one ErrorModel — and it always preserves the original error value as
the cause (`source`) of the projected object. -/
theorem rest_projection_total_preserves_cause (e : OpenFGAError) :
    (∃! m : ErrorModel, ErrorModel.fromOpenFGA e = m) ∧
    (ErrorModel.fromOpenFGA e).source = some e := by
  refine ⟨⟨ErrorModel.fromOpenFGA e, rfl, fun m h => h.symm⟩, ?_⟩
  cases e <;>
    simp only [ErrorModel.fromOpenFGA, ErrorModel.new, ErrorModel.bad_request,
      ErrorModel.unauthorized, ErrorModel.conflict, ErrorModel.not_found]
  all_goals
    first
    | rfl
    | (split
       · rfl
       · split <;> rfl)

/-! ### Theorems about the identifier model -/

/-- C5: `parent` removes the last name segment of a namespace identifier —
absent for a namespace of at most one segment (in particular for the
zero-segment namespace, without panicking and without propagating a
reconstruction failure as an error), and the remaining segments otherwise;
in particular parent(["a"]) = none, parent(["a","b"]) = some(["a"]),
parent([]) = none. -/
theorem namespace_parent_spec (ns : NamespaceIdent) :
    (NamespaceIdent.parent ns =
      if ns.inner.length ≤ 1 then none else some ⟨ns.inner.dropLast⟩)
  ∧ NamespaceIdent.parent ⟨["a"]⟩ = none
  ∧ NamespaceIdent.parent ⟨["a", "b"]⟩ = some ⟨["a"]⟩
  ∧ NamespaceIdent.parent ⟨[]⟩ = none := by
  refine ⟨?_, rfl, rfl, rfl⟩
  obtain ⟨l⟩ := ns
  by_cases h : l.dropLast.isEmpty
  · have hlen : l.length ≤ 1 := by
      have h0 := congrArg List.length (List.isEmpty_iff.mp h)
      simp only [List.length_dropLast, List.length_nil] at h0
      omega
    simp [NamespaceIdent.parent, h, hlen]
  · have hlen : ¬ l.length ≤ 1 := by
      intro hle
      refine h (List.isEmpty_iff.mpr (List.length_eq_zero.mp ?_))
      simp only [List.length_dropLast]
      omega
    simp [NamespaceIdent.parent, NamespaceIdent.from_vec, h, hlen]

/-- C6: for every UUID u and each identifier kind (Project, Warehouse,
Namespace-as-UUID, Table), parsing the display string of the identifier
constructed from u succeeds and returns the identifier itself. -/
theorem ident_roundtrip (u : Uuid) :
    ProjectIdent.fromStr (ProjectIdent.fromUuid u).toText = Except.ok (ProjectIdent.fromUuid u)
  ∧ WarehouseIdent.fromStr (WarehouseIdent.fromUuid u).toText =
      Except.ok (WarehouseIdent.fromUuid u)
  ∧ NamespaceIdentUuid.fromStr (NamespaceIdentUuid.fromUuid u).toText =
      Except.ok (NamespaceIdentUuid.fromUuid u)
  ∧ TableIdentUuid.fromStr (TableIdentUuid.fromUuid u).toText =
      Except.ok (TableIdentUuid.fromUuid u) := by
  have h := uuid_parse_toText u
  refine ⟨?_, ?_, ?_, ?_⟩ <;>
    simp [ProjectIdent.fromStr, WarehouseIdent.fromStr, NamespaceIdentUuid.fromStr,
      TableIdentUuid.fromStr, ProjectIdent.fromUuid, WarehouseIdent.fromUuid,
      NamespaceIdentUuid.fromUuid, TableIdentUuid.fromUuid, ProjectIdent.toText,
      WarehouseIdent.toText, NamespaceIdentUuid.toText, TableIdentUuid.toText,
      Uuid.parseE, h]

/-- C7: for every string s that is not a valid UUID, parsing s as each
identifier kind fails with HTTP status 400, the kind-specific "not a valid
UUID" message, the kind-specific type tag, and the underlying UUID-parse
diagnostic in the stack. -/
theorem ident_parse_invalid_uuid (s : String) (h : Uuid.parse? s = none) :
    ProjectIdent.fromStr s = Except.error ⟨ErrorModel.build 400
      ("Provided project id is not a valid UUID") ("ProjectIDIsNotUUID")
      (some [uuidErrorString s])⟩
  ∧ WarehouseIdent.fromStr s = Except.error ⟨ErrorModel.build 400
      ("Provided warehouse id is not a valid UUID") ("WarehouseIDIsNotUUID")
      (some [uuidErrorString s])⟩
  ∧ TableIdentUuid.fromStr s = Except.error ⟨ErrorModel.build 400
      ("Provided table id is not a valid UUID") ("TableIDIsNotUUID")
      (some [uuidErrorString s])⟩
  ∧ NamespaceIdentUuid.fromStr s = Except.error ⟨ErrorModel.build 400
      ("Provided namespace id is not a valid UUID") ("NamespaceIDIsNotUUID")
      (some [uuidErrorString s])⟩ := by
  refine ⟨?_, ?_, ?_, ?_⟩ <;>
    simp [ProjectIdent.fromStr, WarehouseIdent.fromStr, TableIdentUuid.fromStr,
      NamespaceIdentUuid.fromStr, Uuid.parseE, h]

/-- Witness for C7: the concrete non-UUID input "not-a-uuid". -/
theorem ident_parse_invalid_uuid_witness :
    Uuid.parse? ("not-a-uuid") = none
  ∧ WarehouseIdent.fromStr ("not-a-uuid") = Except.error ⟨ErrorModel.build 400
      ("Provided warehouse id is not a valid UUID") ("WarehouseIDIsNotUUID")
      (some [uuidErrorString ("not-a-uuid")])⟩ :=
  ⟨rfl, (ident_parse_invalid_uuid ("not-a-uuid") rfl).2.1⟩

/-- C8: parsing a path-prefix token as a Warehouse identifier: a non-UUID
token fails with HTTP 400, type tag "PrefixIsNotWarehouseID" and a message
containing the literal offending token; a valid UUID token succeeds with
the Warehouse identifier wrapping that UUID. -/
theorem warehouse_prefix_parse (p : String) :
    (Uuid.parse? p = none →
      WarehouseIdent.tryFromPrefixToken ⟨p⟩ = Except.error ⟨ErrorModel.build 400
        ("Provided prefix is not a warehouse id. Expected UUID, got: " ++ p)
        ("PrefixIsNotWarehouseID") (some [uuidErrorString p])⟩
      ∧ ∃ l r, ("Provided prefix is not a warehouse id. Expected UUID, got: " ++ p).toList
          = l ++ (p.toList ++ r))
  ∧ (∀ u, Uuid.parse? p = some u →
      WarehouseIdent.tryFromPrefixToken ⟨p⟩ = Except.ok ⟨u⟩) := by
  constructor
  · intro h
    refine ⟨by simp [WarehouseIdent.tryFromPrefixToken, Uuid.parseE, h], ?_⟩
    exact ⟨("Provided prefix is not a warehouse id. Expected UUID, got: ").toList, [], by simp⟩
  · intro u h
    simp [WarehouseIdent.tryFromPrefixToken, Uuid.parseE, h]

/-- The all-zero UUID, used as a concrete witness input. -/
def uuidZero : Uuid :=
  ⟨List.replicate 8 0, rfl, List.replicate 4 0, rfl, List.replicate 4 0, rfl,
   List.replicate 4 0, rfl, List.replicate 12 0, rfl⟩

/-- Witness for C8: a concrete non-UUID token fails, and the concrete nil
UUID token succeeds. -/
theorem warehouse_prefix_parse_witness :
    Uuid.parse? ("xyz") = none
  ∧ WarehouseIdent.tryFromPrefixToken ⟨"xyz"⟩ = Except.error ⟨ErrorModel.build 400
      ("Provided prefix is not a warehouse id. Expected UUID, got: xyz")
      ("PrefixIsNotWarehouseID") (some [uuidErrorString ("xyz")])⟩
  ∧ Uuid.parse? ("00000000-0000-0000-0000-000000000000") = some uuidZero
  ∧ WarehouseIdent.tryFromPrefixToken ⟨"00000000-0000-0000-0000-000000000000"⟩ =
      Except.ok ⟨uuidZero⟩ :=
  ⟨rfl, ((warehouse_prefix_parse ("xyz")).1 rfl).1, rfl,
   (warehouse_prefix_parse ("00000000-0000-0000-0000-000000000000")).2 uuidZero rfl⟩

/-- C10: the plain string parser and the path-prefix parser for Warehouse
identifiers accept exactly the same strings and agree on the parsed
identifier; they also agree on the HTTP code and diagnostic stack of the
failure, differing only in its message and type tag. -/
theorem warehouse_entry_points_agree (s : String) :
    exceptOk? (WarehouseIdent.fromStr s) = exceptOk? (WarehouseIdent.tryFromPrefixToken ⟨s⟩)
  ∧ errCode? (WarehouseIdent.fromStr s) = errCode? (WarehouseIdent.tryFromPrefixToken ⟨s⟩)
  ∧ errStack? (WarehouseIdent.fromStr s) = errStack? (WarehouseIdent.tryFromPrefixToken ⟨s⟩) := by
  cases h : Uuid.parseE s <;>
    simp [WarehouseIdent.fromStr, WarehouseIdent.tryFromPrefixToken, h,
      exceptOk?, errCode?, errStack?, ErrorModel.build]

end Lakekeeper
